import Mathlib

/-!
Verification of the task-manager frontend (Next.js tutorial repository).

The development shallowly embeds the code that the checked properties are
about:

* the axios client in `src/services/api.ts` — request interceptor
  (bearer-token injection from `localStorage`) and response interceptor
  (401 handling: token removal, redirect, error propagation);
* `tasksService.getTasks` in `src/services/tasks.ts` — query-string
  construction from a `TaskFilters` object via `URLSearchParams`;
* the Redux `taskSlice` in `src/store/taskSlice.ts` — the synchronous
  reducers and the pending/fulfilled/rejected cases of the five async
  thunks, modelled as a total step function on the slice state.

JavaScript truthiness is translated explicitly where the code relies on
it (`if (token)`, `if (filters?.page)`, `message || fallback`): a string
is truthy iff non-empty, a number is truthy iff non-zero.
-/

namespace TaskApp

/-! ### Data model (`src/types/task.ts`, `src/types/api.ts`) -/

/-- The `Priority` union type: `"low" | "medium" | "high"`. -/
inductive Priority
  | low
  | medium
  | high
deriving DecidableEq, Repr

/-- The string each `Priority` value denotes in TypeScript. -/
def Priority.str : Priority → String
  | .low => "low"
  | .medium => "medium"
  | .high => "high"

/-- The `Task` interface. Optional fields become `Option`. -/
structure Task where
  _id : String
  title : String
  description : Option String
  completed : Bool
  priority : Priority
  dueDate : Option String
  createdAt : String
  updatedAt : String
deriving DecidableEq, Repr

/-- The `TaskFilters` interface: all four fields optional. `page` and `limit`
are JavaScript numbers, modelled as `Int`. -/
structure TaskFilters where
  completed : Option Bool := none
  priority : Option Priority := none
  page : Option Int := none
  limit : Option Int := none
deriving DecidableEq, Repr

/-- The shape of `PaginatedResponse<Task>`: the list page plus the pagination numbers
the server reports. -/
structure PaginatedResponse where
  data : List Task
  total : Int
  page : Int
  limit : Int
  totalPages : Int
deriving DecidableEq, Repr

/-- The `pagination` sub-object of the slice state. -/
structure Pagination where
  page : Int
  limit : Int
  total : Int
  totalPages : Int
deriving DecidableEq, Repr

/-! ### `tasksService.getTasks` query construction (`src/services/tasks.ts`)

The service appends to a `URLSearchParams` in source order:

* `completed` when `filters?.completed !== undefined` (so `false` is kept),
  stringified to `"true"`/`"false"`;
* `priority` when truthy (the union's strings are all non-empty, so: when set);
* `page` when truthy (a number is truthy iff non-zero);
* `limit` when truthy.
-/

/-- The ordered key/value pairs `getTasks` appends for a filter object. -/
def filterPairs (f : TaskFilters) : List (String × String) :=
  (match f.completed with
    | some b => [("completed", if b then "true" else "false")]
    | none => []) ++
  (match f.priority with
    | some p => [("priority", p.str)]
    | none => []) ++
  (match f.page with
    | some n => if n ≠ 0 then [("page", toString n)] else []
    | none => []) ++
  (match f.limit with
    | some n => if n ≠ 0 then [("limit", toString n)] else []
    | none => [])

/-- What `params.toString()` yields: `k=v` pairs joined with `&` (the values produced
here contain no characters that URL-encoding would rewrite). -/
def queryString (f : TaskFilters) : String :=
  String.intercalate "&" ((filterPairs f).map (fun kv => kv.1 ++ "=" ++ kv.2))

/-! ### The axios client (`src/services/api.ts`) -/

/-- The browser-side world the interceptors touch: whether `window` is
defined, the `localStorage` contents as an association list, and
`window.location.href`. -/
structure ClientEnv where
  isBrowser : Bool
  storage : List (String × String)
  location : String
deriving DecidableEq, Repr

/-- Reading a key: `localStorage.getItem`. -/
def getItem (st : List (String × String)) (k : String) : Option String :=
  (st.find? (fun kv => kv.1 == k)).map Prod.snd

/-- Deleting a key: `localStorage.removeItem`. -/
def removeItem (st : List (String × String)) (k : String) : List (String × String) :=
  st.filter (fun kv => kv.1 != k)

/-- The storage key the request interceptor reads: `"token"`. -/
def tokenKey : String := "token"

/-- The route the 401 handler navigates to: `"/auth/login"`. -/
def loginRoute : String := "/auth/login"

/-- An outbound request's header map. -/
structure RequestConfig where
  headers : List (String × String)
deriving DecidableEq, Repr

/-- The assignment `config.headers.Authorization = v`: overwrite if present, else add. -/
def setHeader (hs : List (String × String)) (k v : String) : List (String × String) :=
  if hs.any (fun kv => kv.1 == k) then
    hs.map (fun kv => if kv.1 == k then (k, v) else kv)
  else
    hs ++ [(k, v)]

/-- The request interceptor: in a browser, read `localStorage.getItem("token")`;
if the result is truthy (non-null and non-empty) attach
`Authorization: Bearer <token>`. -/
def requestInterceptor (env : ClientEnv) (cfg : RequestConfig) : RequestConfig :=
  if env.isBrowser then
    match getItem env.storage tokenKey with
    | some token =>
        if token ≠ "" then
          { cfg with headers := setHeader cfg.headers "Authorization" ("Bearer " ++ token) }
        else cfg
    | none => cfg
  else cfg

/-- Whether a config carries an `Authorization` header. -/
def hasAuthHeader (cfg : RequestConfig) : Bool :=
  cfg.headers.any (fun kv => kv.1 == "Authorization")

/-- The `error.response` field of an axios error: HTTP status and
`data.message` (absent or possibly empty). -/
structure ErrorResponse where
  status : Int
  message : Option String
deriving DecidableEq, Repr

/-- An axios error; `response` is absent on transport failures. -/
structure AxiosError where
  response : Option ErrorResponse
deriving DecidableEq, Repr

/-- What the response-error interceptor produces: the updated environment,
the toast message shown, and the settled result handed to the caller
(always `Except.error`, from `Promise.reject(error)`). -/
structure InterceptOutcome where
  env : ClientEnv
  toastMsg : String
  result : Except AxiosError Unit
deriving Repr

/-- The response interceptor's error handler:
if `error.response?.status === 401` and `window` is defined, remove the
stored token and set `window.location.href` to the login route; in every
case toast `error.response?.data?.message || "Something went wrong"` and
return `Promise.reject(error)`. -/
def responseErrorInterceptor (env : ClientEnv) (e : AxiosError) : InterceptOutcome :=
  let env1 :=
    if e.response.map ErrorResponse.status = some 401 then
      if env.isBrowser then
        { env with storage := removeItem env.storage tokenKey, location := loginRoute }
      else env
    else env
  let msg :=
    match e.response with
    | some r =>
        match r.message with
        | some m => if m ≠ "" then m else "Something went wrong"
        | none => "Something went wrong"
    | none => "Something went wrong"
  { env := env1, toastMsg := msg, result := Except.error e }

/-! ### The task slice (`src/store/taskSlice.ts`) -/

/-- The `TaskState` interface: the slice's state shape. -/
structure TaskState where
  tasks : List Task
  currentTask : Option Task
  isLoading : Bool
  error : Option String
  filters : TaskFilters
  pagination : Pagination
deriving DecidableEq, Repr

/-- The slice's `initialState`. -/
def initialState : TaskState :=
  { tasks := []
    currentTask := none
    isLoading := false
    error := none
    filters := { page := some 1, limit := some 10 }
    pagination := { page := 1, limit := 10, total := 0, totalPages := 0 } }

/-- The payload of `setFilters`: a partial filter object spread over the
current one. An outer `some` means the key is present in the payload
(possibly with value `undefined`, the inner `none`). -/
structure FilterPatch where
  completed : Option (Option Bool) := none
  priority : Option (Option Priority) := none
  page : Option (Option Int) := none
  limit : Option (Option Int) := none
deriving DecidableEq, Repr

/-- The spread `\x7b ...state.filters, ...action.payload \x7d`: keys present in the payload
override. -/
def mergeFilters (old : TaskFilters) (p : FilterPatch) : TaskFilters :=
  { completed := p.completed.getD old.completed
    priority := p.priority.getD old.priority
    page := p.page.getD old.page
    limit := p.limit.getD old.limit }

/-- Every action the slice reduces: the three synchronous reducers and the
pending/fulfilled/rejected cases of the five thunks. Rejected payloads
carry the message passed to `rejectWithValue`; `deleteTask.fulfilled`
carries the deleted id. -/
inductive TaskAction
  | fetchTasksPending
  | fetchTasksFulfilled (payload : PaginatedResponse)
  | fetchTasksRejected (msg : String)
  | fetchTaskPending
  | fetchTaskFulfilled (payload : Task)
  | fetchTaskRejected (msg : String)
  | createTaskPending
  | createTaskFulfilled (payload : Task)
  | createTaskRejected (msg : String)
  | updateTaskPending
  | updateTaskFulfilled (payload : Task)
  | updateTaskRejected (msg : String)
  | deleteTaskPending
  | deleteTaskFulfilled (payload : String)
  | deleteTaskRejected (msg : String)
  | setFilters (payload : FilterPatch)
  | clearCurrentTask
  | clearError
deriving Repr

/-- The lookup `state.tasks.findIndex((task) => task._id === id)`, with `none` for
`-1`. -/
def findTaskIdx (tasks : List Task) (i : String) : Option Nat :=
  tasks.findIdx? (fun t => t._id == i)

/-- The test `state.currentTask?._id === id` (optional chaining: `false` when there
is no current task). -/
def currentMatches (s : TaskState) (i : String) : Bool :=
  match s.currentTask with
  | some c => c._id == i
  | none => false

/-- The slice reducer: each case is the corresponding Immer recipe read as
a function from old state to new state. -/
def taskReducer (a : TaskAction) (s : TaskState) : TaskState :=
  match a with
  | .fetchTasksPending => { s with isLoading := true, error := none }
  | .fetchTasksFulfilled p =>
      { s with isLoading := false, tasks := p.data,
               pagination := { page := p.page, limit := p.limit,
                               total := p.total, totalPages := p.totalPages } }
  | .fetchTasksRejected m => { s with isLoading := false, error := some m }
  | .fetchTaskPending => { s with isLoading := true, error := none }
  | .fetchTaskFulfilled t => { s with isLoading := false, currentTask := some t }
  | .fetchTaskRejected m => { s with isLoading := false, error := some m }
  | .createTaskPending => { s with isLoading := true, error := none }
  | .createTaskFulfilled t => { s with isLoading := false, tasks := t :: s.tasks }
  | .createTaskRejected m => { s with isLoading := false, error := some m }
  | .updateTaskPending => { s with isLoading := true, error := none }
  | .updateTaskFulfilled t =>
      let tasks1 :=
        match findTaskIdx s.tasks t._id with
        | some i => s.tasks.set i t
        | none => s.tasks
      let cur1 := if currentMatches s t._id then some t else s.currentTask
      { s with isLoading := false, tasks := tasks1, currentTask := cur1 }
  | .updateTaskRejected m => { s with isLoading := false, error := some m }
  | .deleteTaskPending => { s with isLoading := true, error := none }
  | .deleteTaskFulfilled i =>
      let tasks1 := s.tasks.filter (fun t => t._id != i)
      let cur1 := if currentMatches s i then none else s.currentTask
      { s with isLoading := false, tasks := tasks1, currentTask := cur1 }
  | .deleteTaskRejected m => { s with isLoading := false, error := some m }
  | .setFilters p => { s with filters := mergeFilters s.filters p }
  | .clearCurrentTask => { s with currentTask := none }
  | .clearError => { s with error := none }

/-- Discriminator for the one action that rewrites `state.pagination`. -/
def isFetchTasksFulfilled : TaskAction → Bool
  | .fetchTasksFulfilled _ => true
  | _ => false

/-- Modelled from the spec: the backend's derivation of a paginated
response's `totalPages` field, which is not part of this repository's
sources ("total pages is the ceiling of total divided by page size").
The client stores the reported value unchanged. -/
def derivedTotalPages (total limit : Nat) : Nat :=
  (total + limit - 1) / limit

/-- The keys of the query parameters `getTasks` sends. -/
def paramKeys (f : TaskFilters) : List String :=
  (filterPairs f).map Prod.fst

/-! ### Helper lemmas -/

/-- Which parameter keys `getTasks` emits: `completed` and `priority`
exactly when set, `page` and `limit` exactly when set to a non-zero
(truthy) number. -/
lemma mem_paramKeys_char (f : TaskFilters) (k : String) :
    k ∈ paramKeys f ↔
      (k = "completed" ∧ f.completed.isSome = true) ∨
      (k = "priority" ∧ f.priority.isSome = true) ∨
      (k = "page" ∧ ∃ n, f.page = some n ∧ n ≠ 0) ∨
      (k = "limit" ∧ ∃ n, f.limit = some n ∧ n ≠ 0) := by
  obtain ⟨c, p, pg, l⟩ := f
  rcases c with _ | b <;> rcases p with _ | pr <;> rcases pg with _ | n <;> rcases l with _ | m <;>
    simp [paramKeys, filterPairs] <;> (try tauto)

/-- Removing a key really erases it: `getItem` after `removeItem` on the
same key yields `none`. -/
lemma getItem_removeItem (st : List (String × String)) (k : String) :
    getItem (removeItem st k) k = none := by
  have h : (removeItem st k).find? (fun kv => kv.1 == k) = none := by
    rw [List.find?_eq_none]
    intro kv hmem
    rw [removeItem, List.mem_filter] at hmem
    simpa using hmem.2
  simp [getItem, h]

/-- The function `setHeader` always leaves the written key present. -/
lemma setHeader_has (hs : List (String × String)) (k v : String) :
    (setHeader hs k v).any (fun kv => kv.1 == k) = true := by
  unfold setHeader
  split
  · rename_i h
    rw [List.any_eq_true] at h ⊢
    obtain ⟨kv, hmem, hk⟩ := h
    exact ⟨(k, v), List.mem_map.mpr ⟨kv, hmem, by simp [hk]⟩, by simp⟩
  · rw [List.any_eq_true]
    exact ⟨(k, v), by simp, by simp⟩

end TaskApp

namespace TaskApp

/-! ### Claims -/

/-- Claim C1: for every response error with HTTP status 401 handled in the
browser, the response interceptor leaves no token stored under the key the
request interceptor reads, sets the location to the login route, and still
hands the caller a rejected result carrying the original error. -/
theorem c1_unauthorized_clears_token_redirects_rejects
    (env : ClientEnv) (e : AxiosError)
    (hb : env.isBrowser = true)
    (h401 : e.response.map ErrorResponse.status = some 401) :
    getItem (responseErrorInterceptor env e).env.storage tokenKey = none ∧
    (responseErrorInterceptor env e).env.location = loginRoute ∧
    (responseErrorInterceptor env e).result = Except.error e := by
  simp [responseErrorInterceptor, h401, hb, getItem_removeItem]

/-- Witness for C1: a 401 error in a browser session holding a token. -/
theorem c1_witness :
    getItem (responseErrorInterceptor
        { isBrowser := true, storage := [("token", "abc")], location := "/dashboard" }
        { response := some { status := 401, message := some "Unauthorized" } }).env.storage
      tokenKey = none ∧
    (responseErrorInterceptor
        { isBrowser := true, storage := [("token", "abc")], location := "/dashboard" }
        { response := some { status := 401, message := some "Unauthorized" } }).env.location =
      loginRoute ∧
    (responseErrorInterceptor
        { isBrowser := true, storage := [("token", "abc")], location := "/dashboard" }
        { response := some { status := 401, message := some "Unauthorized" } }).result =
      Except.error { response := some { status := 401, message := some "Unauthorized" } } :=
  c1_unauthorized_clears_token_redirects_rejects _ _ rfl rfl

/-- Claim C2, counterexample: with the empty string stored under
`"token"`, a token *is* stored under the key the request interceptor
reads (`getItem` is `some`), yet the built request carries no
`Authorization` header — JavaScript truthiness skips the empty string.
So "header present iff a token is stored" fails as stated. -/
theorem c2_counterexample_empty_token_stored :
    (getItem [("token", "")] tokenKey).isSome = true ∧
    hasAuthHeader (requestInterceptor
        { isBrowser := true, storage := [("token", "")], location := "/" }
        { headers := [("Content-Type", "application/json")] }) = false := by
  decide

/-- Claim C2 (amended): for every request built in the browser from a
config without an `Authorization` header, the built request carries an
`Authorization` header iff a *non-empty* token is stored under the key
the request interceptor reads. -/
theorem c2_amended_auth_header_iff_nonempty_token
    (env : ClientEnv) (cfg : RequestConfig)
    (hb : env.isBrowser = true) (hc : hasAuthHeader cfg = false) :
    hasAuthHeader (requestInterceptor env cfg) = true ↔
      ∃ t, getItem env.storage tokenKey = some t ∧ t ≠ "" := by
  rcases h : getItem env.storage tokenKey with _ | t
  · simp [requestInterceptor, hb, h, hc]
  · by_cases ht : t = ""
    · subst ht
      simp [requestInterceptor, hb, h, hc]
    · have hhas : hasAuthHeader
          { cfg with headers := setHeader cfg.headers "Authorization" ("Bearer " ++ t) } = true := by
        simpa [hasAuthHeader] using setHeader_has cfg.headers "Authorization" ("Bearer " ++ t)
      simp [requestInterceptor, hb, h, ht, hhas]

/-- Claim C5: the `updateTask.fulfilled` transition replaces, by
identifier and in place, the list entry whose id is the payload's id
(assuming list ids are duplicate-free, as identifiers are unique), keeps
every other entry, adds no entry, and replaces a matching current-task
selection with the payload. -/
theorem c5_update_fulfilled_replaces_in_place (s : TaskState) (x : Task)
    (hnd : (s.tasks.map Task._id).Nodup) :
    (taskReducer (.updateTaskFulfilled x) s).tasks.length = s.tasks.length ∧
    (∀ t ∈ (taskReducer (.updateTaskFulfilled x) s).tasks, t._id = x._id → t = x) ∧
    (∀ t ∈ s.tasks, t._id ≠ x._id → t ∈ (taskReducer (.updateTaskFulfilled x) s).tasks) ∧
    (∀ c, s.currentTask = some c → c._id = x._id →
      (taskReducer (.updateTaskFulfilled x) s).currentTask = some x) := by
  have hcur : ∀ c, s.currentTask = some c → c._id = x._id →
      (taskReducer (.updateTaskFulfilled x) s).currentTask = some x := by
    intro c hc hci
    simp [taskReducer, currentMatches, hc, hci]
  rcases hf : findTaskIdx s.tasks x._id with _ | i
  · have hnone : ∀ t ∈ s.tasks, t._id ≠ x._id := by
      simpa [findTaskIdx] using hf
    have htasks : (taskReducer (.updateTaskFulfilled x) s).tasks = s.tasks := by
      simp [taskReducer, hf]
    rw [htasks]
    exact ⟨rfl, fun t ht heq => absurd heq (hnone t ht), fun t ht _ => ht, hcur⟩
  · obtain ⟨hi, hp, -⟩ := List.findIdx?_eq_some_iff_getElem.mp (by simpa [findTaskIdx] using hf)
    have hxi : (s.tasks[i])._id = x._id := by simpa using hp
    have htasks : (taskReducer (.updateTaskFulfilled x) s).tasks = s.tasks.set i x := by
      simp [taskReducer, hf]
    rw [htasks]
    refine ⟨List.length_set .., ?_, ?_, hcur⟩
    · intro t ht heq
      obtain ⟨j, hj, hget⟩ := List.getElem_of_mem ht
      by_cases hji : j = i
      · subst hji
        rw [List.getElem_set_self] at hget
        exact hget.symm
      · have hjlen : j < s.tasks.length := by simpa using hj
        rw [List.getElem_set_ne (Ne.symm hji)] at hget
        have hjm : j < (s.tasks.map Task._id).length := by simpa using hjlen
        have him : i < (s.tasks.map Task._id).length := by simpa using hi
        have hmapj : (s.tasks.map Task._id)[j] = x._id := by
          rw [List.getElem_map]
          rw [hget]
          exact heq
        have hmapi : (s.tasks.map Task._id)[i] = x._id := by
          rw [List.getElem_map]
          exact hxi
        have : j = i := (List.Nodup.getElem_inj_iff hnd).mp (hmapj.trans hmapi.symm)
        exact absurd this hji
    · intro t ht hne
      obtain ⟨j, hjlen, hget⟩ := List.getElem_of_mem ht
      have hji : j ≠ i := by
        intro h
        subst h
        exact hne (hget ▸ hxi)
      have hj2 : j < (s.tasks.set i x).length := by simpa using hjlen
      have : (s.tasks.set i x)[j] = t := by
        rw [List.getElem_set_ne (Ne.symm hji)]
        exact hget
      exact this ▸ List.getElem_mem hj2

/-- Witness for C5: updating task `"b"` in a two-task list whose current
selection is task `"b"`. -/
theorem c5_witness :
    letI t1 : Task :=
      { _id := "a", title := "first", description := none, completed := false,
        priority := Priority.low, dueDate := none, createdAt := "c1", updatedAt := "u1" }
    letI t2 : Task :=
      { _id := "b", title := "second", description := none, completed := false,
        priority := Priority.medium, dueDate := none, createdAt := "c2", updatedAt := "u2" }
    letI t2n : Task :=
      { _id := "b", title := "second v2", description := none, completed := true,
        priority := Priority.high, dueDate := none, createdAt := "c2", updatedAt := "u3" }
    letI s : TaskState := { initialState with tasks := [t1, t2], currentTask := some t2 }
    (taskReducer (.updateTaskFulfilled t2n) s).tasks.length = s.tasks.length ∧
    (∀ t ∈ (taskReducer (.updateTaskFulfilled t2n) s).tasks, t._id = t2n._id → t = t2n) ∧
    (∀ t ∈ s.tasks, t._id ≠ t2n._id → t ∈ (taskReducer (.updateTaskFulfilled t2n) s).tasks) ∧
    (∀ c, s.currentTask = some c → c._id = t2n._id →
      (taskReducer (.updateTaskFulfilled t2n) s).currentTask = some t2n) :=
  c5_update_fulfilled_replaces_in_place _ _ (by decide)

/-- Claim C6: the `deleteTask.fulfilled` transition removes every list
entry carrying the deleted id, keeps every other entry, and clears the
current-task selection when its id was the deleted one. -/
theorem c6_delete_fulfilled_removes (s : TaskState) (i : String) :
    (∀ t ∈ (taskReducer (.deleteTaskFulfilled i) s).tasks, t._id ≠ i) ∧
    (∀ t ∈ s.tasks, t._id ≠ i → t ∈ (taskReducer (.deleteTaskFulfilled i) s).tasks) ∧
    (∀ c, s.currentTask = some c → c._id = i →
      (taskReducer (.deleteTaskFulfilled i) s).currentTask = none) := by
  refine ⟨?_, ?_, ?_⟩
  · intro t ht
    simp [taskReducer, List.mem_filter] at ht
    exact ht.2
  · intro t ht hne
    simp [taskReducer, List.mem_filter]
    exact ⟨ht, hne⟩
  · intro c hc hci
    simp [taskReducer, currentMatches, hc, hci]

/-- Witness for C6: deleting task `"a"` from a two-task list whose current
selection is task `"a"`. -/
theorem c6_witness :
    letI t1 : Task :=
      { _id := "a", title := "first", description := none, completed := false,
        priority := Priority.low, dueDate := none, createdAt := "c1", updatedAt := "u1" }
    letI t2 : Task :=
      { _id := "b", title := "second", description := none, completed := false,
        priority := Priority.medium, dueDate := none, createdAt := "c2", updatedAt := "u2" }
    letI s : TaskState := { initialState with tasks := [t1, t2], currentTask := some t1 }
    (∀ t ∈ (taskReducer (.deleteTaskFulfilled "a") s).tasks, t._id ≠ "a") ∧
    (∀ t ∈ s.tasks, t._id ≠ "a" → t ∈ (taskReducer (.deleteTaskFulfilled "a") s).tasks) ∧
    (∀ c, s.currentTask = some c → c._id = "a" →
      (taskReducer (.deleteTaskFulfilled "a") s).currentTask = none) :=
  c6_delete_fulfilled_removes _ "a"

/-- Claim C7: every async lifecycle action follows the three-phase
protocol — each pending case sets the loading flag and clears the error,
each fulfilled case clears the loading flag and merges its result (list
and pagination replaced on fetch, current task set on fetch-one, prepend
on create, the update/delete merges being the subject of C5 and C6), and
each rejected case clears the loading flag and stores the message. Every
case is a total function `TaskState → TaskState` by construction. -/
theorem c7_three_phase_protocol (s : TaskState) (p : PaginatedResponse) (t : Task) (m : String) :
    ((taskReducer .fetchTasksPending s).isLoading = true ∧
      (taskReducer .fetchTasksPending s).error = none) ∧
    ((taskReducer .fetchTaskPending s).isLoading = true ∧
      (taskReducer .fetchTaskPending s).error = none) ∧
    ((taskReducer .createTaskPending s).isLoading = true ∧
      (taskReducer .createTaskPending s).error = none) ∧
    ((taskReducer .updateTaskPending s).isLoading = true ∧
      (taskReducer .updateTaskPending s).error = none) ∧
    ((taskReducer .deleteTaskPending s).isLoading = true ∧
      (taskReducer .deleteTaskPending s).error = none) ∧
    ((taskReducer (.fetchTasksFulfilled p) s).isLoading = false ∧
      (taskReducer (.fetchTasksFulfilled p) s).tasks = p.data) ∧
    ((taskReducer (.fetchTaskFulfilled t) s).isLoading = false ∧
      (taskReducer (.fetchTaskFulfilled t) s).currentTask = some t) ∧
    ((taskReducer (.createTaskFulfilled t) s).isLoading = false ∧
      (taskReducer (.createTaskFulfilled t) s).tasks = t :: s.tasks) ∧
    ((taskReducer (.updateTaskFulfilled t) s).isLoading = false) ∧
    ((taskReducer (.deleteTaskFulfilled m) s).isLoading = false ∧
      (taskReducer (.deleteTaskFulfilled m) s).tasks =
        s.tasks.filter (fun u => u._id != m)) ∧
    ((taskReducer (.fetchTasksRejected m) s).isLoading = false ∧
      (taskReducer (.fetchTasksRejected m) s).error = some m) ∧
    ((taskReducer (.fetchTaskRejected m) s).isLoading = false ∧
      (taskReducer (.fetchTaskRejected m) s).error = some m) ∧
    ((taskReducer (.createTaskRejected m) s).isLoading = false ∧
      (taskReducer (.createTaskRejected m) s).error = some m) ∧
    ((taskReducer (.updateTaskRejected m) s).isLoading = false ∧
      (taskReducer (.updateTaskRejected m) s).error = some m) ∧
    ((taskReducer (.deleteTaskRejected m) s).isLoading = false ∧
      (taskReducer (.deleteTaskRejected m) s).error = some m) := by
  simp [taskReducer]

/-- Witness for C7 at the initial state and concrete action data. -/
theorem c7_witness :
    (taskReducer .fetchTasksPending initialState).isLoading = true ∧
    (taskReducer (.createTaskRejected "boom") initialState).error = some "boom" := by
  have h := c7_three_phase_protocol initialState
    { data := [], total := 0, page := 1, limit := 10, totalPages := 0 }
    { _id := "a", title := "first", description := none, completed := false,
      priority := Priority.low, dueDate := none, createdAt := "c1", updatedAt := "u1" }
    "boom"
  exact ⟨h.1.1, h.2.2.2.2.2.2.2.2.2.2.2.2.1.2⟩

/-- Claim C8: only `fetchTasks.fulfilled` touches `state.pagination` — it
replaces it wholesale from the response — and every other action of the
slice leaves the pagination fields unchanged. -/
theorem c8_pagination_only_from_fetch (a : TaskAction) (s : TaskState) (p : PaginatedResponse)
    (h : isFetchTasksFulfilled a = false) :
    ((taskReducer a s).pagination = s.pagination) ∧
    ((taskReducer (.fetchTasksFulfilled p) s).pagination =
      { page := p.page, limit := p.limit, total := p.total, totalPages := p.totalPages }) := by
  constructor
  · cases a <;> simp_all [taskReducer, isFetchTasksFulfilled]
  · simp [taskReducer]

/-- Witness for C8 at `createTask.fulfilled` on the initial state. -/
theorem c8_witness :
    ((taskReducer (.createTaskFulfilled
        { _id := "a", title := "first", description := none, completed := false,
          priority := Priority.low, dueDate := none, createdAt := "c1", updatedAt := "u1" })
        initialState).pagination = initialState.pagination) ∧
    ((taskReducer (.fetchTasksFulfilled
        { data := [], total := 3, page := 1, limit := 2, totalPages := 2 })
        initialState).pagination =
      { page := 1, limit := 2, total := 3, totalPages := 2 }) :=
  c8_pagination_only_from_fetch _ _ _ rfl

/-- Claim C9: for a paginated response with total 47 and page size 10
(and a five-item page, as in the spec's instance), the total-pages value
held in state after `fetchTasks.fulfilled` is 5 — the ceiling of total
divided by page size, as computed by the server model. -/
theorem c9_total_pages_ceiling (s : TaskState) (d : List Task) (h : d.length = 5) :
    derivedTotalPages 47 10 = 5 ∧
    (taskReducer (.fetchTasksFulfilled
        { data := d, total := 47, page := 2, limit := 10,
          totalPages := (derivedTotalPages 47 10 : Int) }) s).pagination.totalPages = 5 ∧
    (taskReducer (.fetchTasksFulfilled
        { data := d, total := 47, page := 2, limit := 10,
          totalPages := (derivedTotalPages 47 10 : Int) }) s).tasks.length = 5 := by
  refine ⟨by decide, by simp [taskReducer, derivedTotalPages], ?_⟩
  simp [taskReducer, h]

/-- Witness for C9: a concrete five-task page. -/
theorem c9_witness :
    letI t1 : Task :=
      { _id := "a", title := "first", description := none, completed := false,
        priority := Priority.low, dueDate := none, createdAt := "c1", updatedAt := "u1" }
    derivedTotalPages 47 10 = 5 ∧
    (taskReducer (.fetchTasksFulfilled
        { data := List.replicate 5 t1, total := 47, page := 2, limit := 10,
          totalPages := (derivedTotalPages 47 10 : Int) })
      initialState).pagination.totalPages = 5 ∧
    (taskReducer (.fetchTasksFulfilled
        { data := List.replicate 5 t1, total := 47, page := 2, limit := 10,
          totalPages := (derivedTotalPages 47 10 : Int) })
      initialState).tasks.length = 5 :=
  c9_total_pages_ceiling initialState _ (by decide)

/-- Witness for C2 (amended): a browser session holding the token
`"abc"` and a fresh config. -/
theorem c2_amended_witness :
    hasAuthHeader (requestInterceptor
        { isBrowser := true, storage := [("token", "abc")], location := "/" }
        { headers := [] }) = true ↔
      ∃ t, getItem [("token", "abc")] tokenKey = some t ∧ t ≠ "" :=
  c2_amended_auth_header_iff_nonempty_token _ _ rfl rfl

/-- Claim C3: for the filter `{completed: true, priority: "high", page: 2,
limit: 10}`, `getTasks` builds exactly the query string
`completed=true&priority=high&page=2&limit=10`, in that order, with no
extra parameters. -/
theorem c3_filter_query_exact :
    queryString { completed := some true, priority := some Priority.high,
                  page := some 2, limit := some 10 } =
      "completed=true&priority=high&page=2&limit=10" := by
  decide

/-- Claim C4, counterexample: the filter `{page: 0}` has its `page` field
set, yet `getTasks` serializes no parameter at all for it — so the claim
that exactly the set fields are serialized fails. -/
theorem c4_counterexample_page_zero :
    ({ page := some 0 } : TaskFilters).page.isSome = true ∧
    paramKeys ({ page := some 0 } : TaskFilters) = [] := by
  decide

/-- Claim C4 (amended): `getTasks` serializes exactly the set `completed`
and `priority` fields and exactly the set *and non-zero* `page` and
`limit` fields, with no extra parameters. -/
theorem c4_amended_serializes_set_truthy_fields (f : TaskFilters) (k : String) :
    k ∈ paramKeys f ↔
      (k = "completed" ∧ f.completed.isSome = true) ∨
      (k = "priority" ∧ f.priority.isSome = true) ∨
      (k = "page" ∧ ∃ n, f.page = some n ∧ n ≠ 0) ∨
      (k = "limit" ∧ ∃ n, f.limit = some n ∧ n ≠ 0) :=
  mem_paramKeys_char f k

/-- Witness for C4 (amended) at the filter `{limit: 7}` and key `"limit"`. -/
theorem c4_amended_witness :
    "limit" ∈ paramKeys ({ limit := some 7 } : TaskFilters) ↔
      ("limit" = "completed" ∧ (({ limit := some 7 } : TaskFilters)).completed.isSome = true) ∨
      ("limit" = "priority" ∧ (({ limit := some 7 } : TaskFilters)).priority.isSome = true) ∨
      ("limit" = "page" ∧ ∃ n, (({ limit := some 7 } : TaskFilters)).page = some n ∧ n ≠ 0) ∨
      ("limit" = "limit" ∧ ∃ n, (({ limit := some 7 } : TaskFilters)).limit = some n ∧ n ≠ 0) :=
  c4_amended_serializes_set_truthy_fields { limit := some 7 } "limit"

/-- Claim C10: `completed: false` still yields a `completed=false`
parameter, while `page: 0` or `limit: 0` yield no `page`/`limit`
parameter — those two are omitted whenever falsy, and emitted whenever
non-zero. -/
theorem c10_falsy_page_limit_omitted (f : TaskFilters) :
    (f.completed = some false → ("completed", "false") ∈ filterPairs f) ∧
    (f.page = some 0 → "page" ∉ paramKeys f) ∧
    (f.limit = some 0 → "limit" ∉ paramKeys f) ∧
    (∀ n, f.page = some n → n ≠ 0 → ("page", toString n) ∈ filterPairs f) ∧
    (∀ n, f.limit = some n → n ≠ 0 → ("limit", toString n) ∈ filterPairs f) := by
  obtain ⟨c, p, pg, l⟩ := f
  refine ⟨?_, ?_, ?_, ?_, ?_⟩
  · intro h
    subst h
    simp [filterPairs]
  · intro h
    subst h
    simp [mem_paramKeys_char]
  · intro h
    subst h
    simp [mem_paramKeys_char]
  · intro n h hn
    subst h
    simp [filterPairs, hn]
  · intro n h hn
    subst h
    simp [filterPairs, hn]

/-- Witness for C10 at the filter
`{completed: false, priority: "low", page: 0, limit: 0}`. -/
theorem c10_witness :
    (("completed", "false") ∈
        filterPairs { completed := some false, priority := some Priority.low,
                      page := some 0, limit := some 0 }) ∧
    ("page" ∉ paramKeys { completed := some false, priority := some Priority.low,
                          page := some 0, limit := some 0 }) ∧
    ("limit" ∉ paramKeys { completed := some false, priority := some Priority.low,
                           page := some 0, limit := some 0 }) := by
  have h := c10_falsy_page_limit_omitted
    { completed := some false, priority := some Priority.low,
      page := some 0, limit := some 0 }
  exact ⟨h.1 rfl, h.2.1 rfl, h.2.2.1 rfl⟩

end TaskApp
